import Mathlib

/-!
# Verification of the WASAPI render loop (`WASAPIPlayer::worker`)

Shallow embedding of `src/client/player/wasapi_player.cpp`, centred on the
render loop (lines 290-350), its drift computation (lines 317-322), the
recovery paths (timeout branch, lines 293-311; starvation branch, lines
333-349), and the `CHECK_HR` error-propagation macro (line 59) together with
the session-setup sequence that uses it (lines 182-288).

Machine integers are modelled as `Nat` with explicit reduction modulo `2^64`
at the operations where the C++ code performs unsigned 64-bit arithmetic
(`UINT64` multiplication, subtraction).  `HRESULT` values are modelled as
`Int` holding the signed 32-bit value, so that `FAILED(hr)` is `hr < 0`.
-/

namespace Wasapi

/-- The modulus of `UINT64` arithmetic, `2^64`. -/
def U64 : Nat := 18446744073709551616

/-- The first value that is negative when a `UINT64` bit pattern is
reinterpreted as a signed 64-bit integer. -/
def I64HALF : Nat := 9223372036854775808

/-- Unsigned 64-bit multiplication: `a * b` on `UINT64` operands. -/
def mul64 (a b : Nat) : Nat := (a * b) % U64

/-- Unsigned 64-bit subtraction: `a - b` on `UINT64` operands, i.e. the
wraparound difference modulo `2^64`. -/
def sub64 (a b : Nat) : Nat := (a % U64 + (U64 - b % U64)) % U64

/-- Reinterpretation of a `UINT64` bit pattern as a signed two's-complement
64-bit integer, as happens when the unsigned difference is used to construct
the `std::chrono::microseconds` (whose representation is a signed 64-bit
integer) passed to `getPlayerChunk`. -/
def toInt64 (v : Nat) : Int :=
  if v % U64 < I64HALF then ((v % U64 : Nat) : Int)
  else ((v % U64 : Nat) : Int) - (U64 : Int)

/-- The `UINT64` value of the drift expression at lines 320-321:
`((bufferPosition * 1000000) / waveformat->nSamplesPerSec) -
 ((position * 1000000) / frequency)`, evaluated in unsigned 64-bit
arithmetic. -/
def driftU64 (bp pos sr f : Nat) : Nat :=
  sub64 (mul64 bp 1000000 / sr) (mul64 pos 1000000 / f)

/-- The signed microsecond count received by `getPlayerChunk`: the unsigned
64-bit drift value reinterpreted as a signed 64-bit integer. -/
def driftArg (bp pos sr f : Nat) : Int := toInt64 (driftU64 bp pos sr f)

/-- Key arithmetic fact: when both operands are below `2^63`, the unsigned
64-bit subtraction followed by signed reinterpretation yields the exact
integer difference (in particular a negative difference arrives correctly
via wraparound). -/
theorem toInt64_sub64 (a b : Nat) (ha : a < I64HALF) (hb : b < I64HALF) :
    toInt64 (sub64 a b) = (a : Int) - (b : Int) := by
  simp only [toInt64, sub64, U64, I64HALF] at ha hb ⊢
  split <;> omega

/-- The `FAILED(hr)` test for an `HRESULT` held as its signed 32-bit value: the severity
bit is set exactly when the signed value is negative. -/
def FAILED (hr : Int) : Bool := hr < 0

/-- The `ERROR_TIMEOUT` value (winerror.h) fed to `CHECK_HR` in the timeout
branch at line 297.  It is a positive Win32 error code, not a failed
`HRESULT`, so `CHECK_HR(ERROR_TIMEOUT)` does not throw. -/
def errorTimeout : Int := 1460

/-- The `E_FAIL` code (`0x80004005`) as a signed 32-bit value. -/
def eFail : Int := -2147467259

/-- The `AUDCLNT_E_BUFFER_SIZE_NOT_ALIGNED` code (`0x88890019`) as a signed 32-bit
value. -/
def audclntBufSizeNotAligned : Int := -2004287463

/-- The `CHECK_HR` macro (line 59): throw a `SnapException` (modelled as
`Except.error` carrying the `HRESULT`) exactly when `FAILED(hres)`. -/
def checkHR (hr : Int) : Except Int Unit :=
  if FAILED hr then Except.error hr else Except.ok ()

/-- Session constants fixed before the render loop starts: the negotiated
sample rate (`waveformat->nSamplesPerSec`), the hardware clock tick frequency
read once by `clock->GetFrequency(&frequency)` at line 288, and the endpoint
buffer size in frames (`bufferFrameCount`, line 256). -/
structure Config where
  sampleRate : Nat
  frequency : Nat
  bufferFrameCount : Nat
deriving DecidableEq

/-- Environment of one iteration of the `while (active_)` loop: the values the
loop would observe from the outside world during that iteration.
`clockFreqNow` is the frequency a fresh `GetFrequency` call would report at
this iteration; the loop never performs such a call, so the field is unused by
`step` (this is exactly what claim C7 is about).  `poll` lists the successive
evaluations of the recovery poll condition `active_ && !waitForChunk(100ms)`
as pairs (value read from `active_`, result of `waitForChunk`). -/
structure IterInput where
  activeAtTop : Bool
  waitSignaled : Bool
  activeAfterWait : Bool
  clockPos : Nat
  clockFreqNow : Nat
  chunkAvail : Bool
  poll : List (Bool × Bool)
  hrStop : Int
  hrReset : Int
  hrStart : Int
  hrGetBuffer : Int
  hrReleaseBuffer : Int
deriving DecidableEq

/-- Observable actions of one loop iteration, in program order. -/
inductive Event where
  | logTimeout
  | logFailedChunk
  | logWaiting
  | epStop
  | epReset
  | epStart
  | getPosition (pos : Nat)
  | getChunk (drift : Int) (ok : Bool)
  | adjustVolume
  | getBuffer
  | releaseBuffer
  | bpSet (v : Nat)
deriving DecidableEq

/-- Value of `active_` observed when the recovery poll loop
`while (active_ && !stream_->waitForChunk(100ms))` exits: `some a` where `a`
is the `active_` value read in the terminating evaluation of the condition
(`a = false` means the stop signal ended the poll, `a = true` means
`waitForChunk` reported data); `none` if the supplied evaluations never
terminate the loop (environment ran out). -/
def pollExit : List (Bool × Bool) → Option Bool
  | [] => none
  | (a, w) :: rest => if a && !w then pollExit rest else some a

/-- Number of `"Waiting for chunk"` log lines the recovery poll loop emits:
one per evaluation of the condition that comes out true. -/
def pollLogs : List (Bool × Bool) → Nat
  | [] => 0
  | (a, w) :: rest => if a && !w then pollLogs rest + 1 else 0

/-- Outcome of the shared recovery sequence. -/
inductive RecOut where
  | ok
  | fault (hr : Int)
  | stuck
deriving DecidableEq

/-- The recovery sequence shared by the timeout branch (lines 299-309) and the
starvation branch (lines 338-348): `audioClient->Stop()` checked,
`audioClient->Reset()` checked, the poll loop on `waitForChunk`, then
`audioClient->Start()` checked and `bufferPosition = 0`.  Returns the emitted
events and the outcome; on a fault or a non-terminating poll the assignment
`bufferPosition = 0` is never reached. -/
def recover (i : IterInput) : List Event × RecOut :=
  if FAILED i.hrStop then ([Event.epStop], RecOut.fault i.hrStop)
  else if FAILED i.hrReset then ([Event.epStop, Event.epReset], RecOut.fault i.hrReset)
  else
    let waits := List.replicate (pollLogs i.poll) Event.logWaiting
    match pollExit i.poll with
    | none => ([Event.epStop, Event.epReset] ++ waits, RecOut.stuck)
    | some _ =>
        if FAILED i.hrStart then
          ([Event.epStop, Event.epReset] ++ waits ++ [Event.epStart], RecOut.fault i.hrStart)
        else
          ([Event.epStop, Event.epReset] ++ waits ++ [Event.epStart, Event.bpSet 0],
           RecOut.ok)

/-- How one iteration of the render loop ends. -/
inductive Control where
  | next
  | stopTop
  | stopAfterWait
  | timeoutBreak
  | fault (hr : Int)
  | stuck
deriving DecidableEq

/-- One iteration of the `while (active_)` render loop (lines 290-350),
given the session constants, the current `bufferPosition` and the iteration's
environment.  Returns the emitted events, the resulting `bufferPosition` and
how control leaves the iteration.  Mirrors the source: top-of-loop `active_`
test; `WaitForSingleObject(eventHandle, 2000)`; on timeout the log,
`CHECK_HR(ERROR_TIMEOUT)` (which does not throw), recovery and `break`; on
signal the re-check of `active_`, `clock->GetPosition(&position)`, the
`getPlayerChunk` request at the drift offset, and either the volume-adjusted
commit plus `bufferPosition += bufferFrameCount`, or the starvation log and
recovery. -/
def step (cfg : Config) (bp : Nat) (i : IterInput) : List Event × Nat × Control :=
  if !i.activeAtTop then ([], bp, Control.stopTop)
  else if !i.waitSignaled then
    if FAILED errorTimeout then ([Event.logTimeout], bp, Control.fault errorTimeout)
    else
      match recover i with
      | (es, RecOut.ok) => (Event.logTimeout :: es, 0, Control.timeoutBreak)
      | (es, RecOut.fault hr) => (Event.logTimeout :: es, bp, Control.fault hr)
      | (es, RecOut.stuck) => (Event.logTimeout :: es, bp, Control.stuck)
  else if !i.activeAfterWait then ([], bp, Control.stopAfterWait)
  else
    let d := driftArg bp i.clockPos cfg.sampleRate cfg.frequency
    let pre := [Event.getPosition i.clockPos, Event.getChunk d i.chunkAvail]
    if i.chunkAvail then
      if FAILED i.hrGetBuffer then
        (pre ++ [Event.adjustVolume, Event.getBuffer], bp, Control.fault i.hrGetBuffer)
      else if FAILED i.hrReleaseBuffer then
        (pre ++ [Event.adjustVolume, Event.getBuffer, Event.releaseBuffer], bp,
         Control.fault i.hrReleaseBuffer)
      else
        (pre ++ [Event.adjustVolume, Event.getBuffer, Event.releaseBuffer,
                 Event.bpSet (bp + cfg.bufferFrameCount)],
         bp + cfg.bufferFrameCount, Control.next)
    else
      match recover i with
      | (es, RecOut.ok) => (pre ++ [Event.logFailedChunk] ++ es, 0, Control.next)
      | (es, RecOut.fault hr) => (pre ++ [Event.logFailedChunk] ++ es, bp, Control.fault hr)
      | (es, RecOut.stuck) => (pre ++ [Event.logFailedChunk] ++ es, bp, Control.stuck)

/-- How a whole run of the render loop ends.  `inputsExhausted` is the model
artifact of supplying only finitely many iteration environments. -/
inductive RunEnd where
  | stopTop
  | stopAfterWait
  | timeoutBreak
  | fault (hr : Int)
  | stuck
  | inputsExhausted
deriving DecidableEq

/-- The render loop run over a finite list of iteration environments:
iterates `step`, concatenating events, until an iteration ends the loop. -/
def run (cfg : Config) (bp : Nat) : List IterInput → List Event × Nat × RunEnd
  | [] => ([], bp, RunEnd.inputsExhausted)
  | i :: rest =>
    match step cfg bp i with
    | (es, bp', Control.next) =>
        let r := run cfg bp' rest
        (es ++ r.1, r.2.1, r.2.2)
    | (es, bp', Control.stopTop) => (es, bp', RunEnd.stopTop)
    | (es, bp', Control.stopAfterWait) => (es, bp', RunEnd.stopAfterWait)
    | (es, bp', Control.timeoutBreak) => (es, bp', RunEnd.timeoutBreak)
    | (es, bp', Control.fault hr) => (es, bp', RunEnd.fault hr)
    | (es, bp', Control.stuck) => (es, bp', RunEnd.stuck)

/-- Number of occurrences of an event in a trace. -/
def countEvent (e : Event) (es : List Event) : Nat :=
  (es.filter (fun x => decide (x = e))).length

/-- Environment of the one-time session setup performed by `worker` before the
render loop (lines 180-288): the `HRESULT` each endpoint operation returns, in
program order, plus the two handle-creation outcomes that are checked with
`CHECK_HR(E_FAIL)`.  The `hr` of `devices->Item` (line 201) and of
`clock->GetFrequency` (line 288) are not checked by the code and therefore do
not appear. -/
structure SetupInput where
  deviceIdx : Nat
  hrCoCreate : Int
  hrGetDefaultEndpoint : Int
  hrEnumEndpoints : Int
  hrActivate : Int
  hrIsFormatSupported : Int
  hrGetDevicePeriod : Int
  hrInitialize : Int
  hrGetBufferSizeAligned : Int
  hrActivate2 : Int
  hrInitialize2 : Int
  eventCreated : Bool
  hrSetEventHandle : Int
  hrGetBufferSize : Int
  hrGetServiceRender : Int
  hrGetServiceClock : Int
  taskAcquired : Bool
  hrStart : Int
deriving DecidableEq

/-- The sequence of `HRESULT` values the setup feeds to `CHECK_HR`, in program
order (lines 182-282).  The only `HRESULT` whose check is not unconditional:
a first `Initialize` returning `AUDCLNT_E_BUFFER_SIZE_NOT_ALIGNED` (line 228)
leads to `GetBufferSize`, re-`Activate` and a second `Initialize`, and the
check at line 245 then applies to the second `Initialize`'s result instead of
the first.  A NULL event handle or task handle is checked as
`CHECK_HR(E_FAIL)` (lines 250, 278). -/
def setupHRs (s : SetupInput) : List Int :=
  [s.hrCoCreate,
   if s.deviceIdx == 0 then s.hrGetDefaultEndpoint else s.hrEnumEndpoints,
   s.hrActivate, s.hrIsFormatSupported, s.hrGetDevicePeriod] ++
  (if s.hrInitialize == audclntBufSizeNotAligned then
     [s.hrGetBufferSizeAligned, s.hrActivate2, s.hrInitialize2]
   else [s.hrInitialize]) ++
  (if s.eventCreated then [] else [eFail]) ++
  [s.hrSetEventHandle, s.hrGetBufferSize, s.hrGetServiceRender,
   s.hrGetServiceClock] ++
  (if s.taskAcquired then [] else [eFail]) ++
  [s.hrStart]

/-- Straight-line `CHECK_HR` chain: the first FAILED `HRESULT` throws (the
thrown exception carries it) and nothing after it runs. -/
def firstFailed : List Int → Except Int Unit
  | [] => Except.ok ()
  | hr :: rest =>
    match checkHR hr with
    | Except.error e => Except.error e
    | Except.ok _ => firstFailed rest

/-- The session setup: run the `CHECK_HR` chain. -/
def setup (s : SetupInput) : Except Int Unit := firstFailed (setupHRs s)

/-- Conditions under which an iteration is a successful `Running` iteration
(signalled wait, still active, chunk delivered, both buffer-commit calls
succeed). -/
def successIter (i : IterInput) : Bool :=
  i.activeAtTop && i.waitSignaled && i.activeAfterWait && i.chunkAvail &&
    !FAILED i.hrGetBuffer && !FAILED i.hrReleaseBuffer

/-- Conditions under which the shared recovery sequence runs to completion
(reaching `bufferPosition = 0`): `Stop` and `Reset` succeed, the poll loop
terminates, and `Start` succeeds. -/
def recoveryCompletes (i : IterInput) : Bool :=
  !FAILED i.hrStop && !FAILED i.hrReset && (pollExit i.poll).isSome &&
    !FAILED i.hrStart

/-- Conditions under which an iteration performs a completed recovery
transition: it enters the timeout branch or the starvation branch and the
recovery sequence completes. -/
def recoveryIter (i : IterInput) : Bool :=
  i.activeAtTop && (!i.waitSignaled || (i.activeAfterWait && !i.chunkAvail)) &&
    recoveryCompletes i

/-- Characterization of a completed recovery sequence. -/
theorem recover_ok_events (i : IterInput) (a : Bool)
    (hS : FAILED i.hrStop = false) (hR : FAILED i.hrReset = false)
    (hP : pollExit i.poll = some a) (hSt : FAILED i.hrStart = false) :
    recover i =
      ([Event.epStop, Event.epReset] ++
         List.replicate (pollLogs i.poll) Event.logWaiting ++
         [Event.epStart, Event.bpSet 0], RecOut.ok) := by
  simp [recover, hS, hR, hP, hSt]

/-- The recovery sequence completes exactly under `recoveryCompletes`. -/
theorem recover_ok_iff (i : IterInput) :
    (recover i).2 = RecOut.ok ↔ recoveryCompletes i = true := by
  unfold recover recoveryCompletes
  cases hS : FAILED i.hrStop <;> cases hR : FAILED i.hrReset <;>
    cases hP : pollExit i.poll <;> cases hSt : FAILED i.hrStart <;>
      simp [hS, hR, hP, hSt]

/-- Iteration with the stop signal observed at the top of the loop. -/
theorem step_stop_top (cfg : Config) (bp : Nat) (i : IterInput)
    (h : i.activeAtTop = false) :
    step cfg bp i = ([], bp, Control.stopTop) := by
  simp [step, h]

/-- Iteration with the stop signal observed right after the pacing wait. -/
theorem step_stop_after_wait (cfg : Config) (bp : Nat) (i : IterInput)
    (hA : i.activeAtTop = true) (hW : i.waitSignaled = true)
    (hAW : i.activeAfterWait = false) :
    step cfg bp i = ([], bp, Control.stopAfterWait) := by
  simp [step, hA, hW, hAW]

/-- Successful `Running` iteration: fresh clock position, chunk request at the
drift offset, volume adjustment, buffer commit, position advance. -/
theorem step_success (cfg : Config) (bp : Nat) (i : IterInput)
    (hA : i.activeAtTop = true) (hW : i.waitSignaled = true)
    (hAW : i.activeAfterWait = true) (hCA : i.chunkAvail = true)
    (hGB : FAILED i.hrGetBuffer = false) (hRB : FAILED i.hrReleaseBuffer = false) :
    step cfg bp i =
      ([Event.getPosition i.clockPos,
        Event.getChunk (driftArg bp i.clockPos cfg.sampleRate cfg.frequency) true,
        Event.adjustVolume, Event.getBuffer, Event.releaseBuffer,
        Event.bpSet (bp + cfg.bufferFrameCount)],
       bp + cfg.bufferFrameCount, Control.next) := by
  simp [step, hA, hW, hAW, hCA, hGB, hRB]

/-- Timeout iteration, parametrized by the recovery outcome. -/
theorem step_timeout_rec (cfg : Config) (bp : Nat) (i : IterInput)
    (es : List Event) (r : RecOut)
    (hA : i.activeAtTop = true) (hW : i.waitSignaled = false)
    (hrec : recover i = (es, r)) :
    step cfg bp i =
      (Event.logTimeout :: es,
       match r with | RecOut.ok => 0 | _ => bp,
       match r with
       | RecOut.ok => Control.timeoutBreak
       | RecOut.fault hr => Control.fault hr
       | RecOut.stuck => Control.stuck) := by
  rcases r <;> simp [step, hA, hW, hrec, (by decide : FAILED errorTimeout = false)]

/-- Starved iteration, parametrized by the recovery outcome. -/
theorem step_starved_rec (cfg : Config) (bp : Nat) (i : IterInput)
    (es : List Event) (r : RecOut)
    (hA : i.activeAtTop = true) (hW : i.waitSignaled = true)
    (hAW : i.activeAfterWait = true) (hCA : i.chunkAvail = false)
    (hrec : recover i = (es, r)) :
    step cfg bp i =
      ([Event.getPosition i.clockPos,
        Event.getChunk (driftArg bp i.clockPos cfg.sampleRate cfg.frequency) false,
        Event.logFailedChunk] ++ es,
       match r with | RecOut.ok => 0 | _ => bp,
       match r with
       | RecOut.ok => Control.next
       | RecOut.fault hr => Control.fault hr
       | RecOut.stuck => Control.stuck) := by
  rcases r <;> simp [step, hA, hW, hAW, hCA, hrec]

/-- Unfolding of the loop over an iteration that continues. -/
theorem run_cons_next (cfg : Config) (bp : Nat) (i : IterInput)
    (rest : List IterInput) (es : List Event) (bp' : Nat)
    (h : step cfg bp i = (es, bp', Control.next)) :
    run cfg bp (i :: rest) =
      (es ++ (run cfg bp' rest).1, (run cfg bp' rest).2.1, (run cfg bp' rest).2.2) := by
  simp [run, h]

/-- Unfolding of the loop over an iteration stopped at the loop top. -/
theorem run_cons_stopTop (cfg : Config) (bp : Nat) (i : IterInput)
    (rest : List IterInput) (es : List Event) (bp' : Nat)
    (h : step cfg bp i = (es, bp', Control.stopTop)) :
    run cfg bp (i :: rest) = (es, bp', RunEnd.stopTop) := by
  simp [run, h]

/-- Unfolding of the loop over an iteration stopped after the pacing wait. -/
theorem run_cons_stopAfterWait (cfg : Config) (bp : Nat) (i : IterInput)
    (rest : List IterInput) (es : List Event) (bp' : Nat)
    (h : step cfg bp i = (es, bp', Control.stopAfterWait)) :
    run cfg bp (i :: rest) = (es, bp', RunEnd.stopAfterWait) := by
  simp [run, h]

/-- Unfolding of the loop over a timed-out iteration that breaks. -/
theorem run_cons_timeoutBreak (cfg : Config) (bp : Nat) (i : IterInput)
    (rest : List IterInput) (es : List Event) (bp' : Nat)
    (h : step cfg bp i = (es, bp', Control.timeoutBreak)) :
    run cfg bp (i :: rest) = (es, bp', RunEnd.timeoutBreak) := by
  simp [run, h]

/-- Unfolding of the loop over a faulting iteration: the run ends at once with
the fault (the remaining environment is never consumed, i.e. no retry). -/
theorem run_cons_fault (cfg : Config) (bp : Nat) (i : IterInput)
    (rest : List IterInput) (es : List Event) (bp' : Nat) (hr : Int)
    (h : step cfg bp i = (es, bp', Control.fault hr)) :
    run cfg bp (i :: rest) = (es, bp', RunEnd.fault hr) := by
  simp [run, h]

/-- C10: the drift argument is evaluated in unsigned 64-bit arithmetic; whenever
both quotient terms (as the code computes them, i.e. with the products taken
modulo `2^64`) are below `2^63`, the unsigned subtraction reinterpreted as a
signed 64-bit microsecond count equals the exact signed difference of the two
terms, so a negative drift is delivered correctly via wraparound modulo
`2^64`. -/
theorem c10_drift_unsigned_wraparound (bp pos sr f : Nat)
    (_hsr : 0 < sr) (_hf : 0 < f)
    (h1 : mul64 bp 1000000 / sr < I64HALF)
    (h2 : mul64 pos 1000000 / f < I64HALF) :
    driftArg bp pos sr f =
      ((mul64 bp 1000000 / sr : Nat) : Int) - ((mul64 pos 1000000 / f : Nat) : Int) := by
  unfold driftArg driftU64
  exact toInt64_sub64 _ _ h1 h2

/-- Witness for C10 at concrete inputs with a negative drift: bufferPosition 0,
clock position 1 tick, sampleRate 1, frequency 1 give drift `-1000000`
microseconds, delivered exactly through the unsigned wraparound. -/
theorem c10_witness :
    driftArg 0 1 1 1 =
      ((mul64 0 1000000 / 1 : Nat) : Int) - ((mul64 1 1000000 / 1 : Nat) : Int) ∧
    driftArg 0 1 1 1 = -1000000 :=
  ⟨c10_drift_unsigned_wraparound 0 1 1 1 (by decide) (by decide) (by decide) (by decide),
   by decide⟩

/-- C1 (amended): the drift passed to `getPlayerChunk` equals
`bufferPosition * 1000000 / sampleRate - position * 1000000 / frequency`
(integer division, exact signed difference) provided the two products stay
below `2^64` and the two quotients below `2^63`; without those bounds the
unsigned 64-bit evaluation wraps around (see `c1_counterexample`). -/
theorem c1_drift_formula (bp pos sr f : Nat)
    (_hsr : 0 < sr) (_hf : 0 < f)
    (hbp : bp * 1000000 < U64) (hpos : pos * 1000000 < U64)
    (h1 : bp * 1000000 / sr < I64HALF) (h2 : pos * 1000000 / f < I64HALF) :
    driftArg bp pos sr f =
      ((bp * 1000000 / sr : Nat) : Int) - ((pos * 1000000 / f : Nat) : Int) := by
  unfold driftArg driftU64 mul64
  rw [Nat.mod_eq_of_lt hbp, Nat.mod_eq_of_lt hpos]
  exact toInt64_sub64 _ _ h1 h2

/-- Witness for C1 at the claim's own example: sampleRate 48000, bufferPosition
48000 frames, 5000000 hardware ticks at frequency 10000000 give a drift of
`+500000` microseconds. -/
theorem c1_witness : driftArg 48000 5000000 48000 10000000 = 500000 := by
  have h := c1_drift_formula 48000 5000000 48000 10000000
    (by decide) (by decide) (by decide) (by decide) (by decide) (by decide)
  rw [h]; decide

/-- Counterexample to C1 as universally stated: at `bufferPosition = 2^58`
(with the claim's other example values) the product `bufferPosition * 1000000`
is a multiple of `2^64`, so the code's unsigned 64-bit evaluation yields
`-500000` microseconds while the exact formula yields a huge positive value. -/
theorem c1_counterexample :
    driftArg 288230376151711744 5000000 48000 10000000 = -500000 ∧
    ((288230376151711744 * 1000000 / 48000 : Nat) : Int) -
      ((5000000 * 1000000 / 10000000 : Nat) : Int) ≠ -500000 := by
  decide

/-- Occurrence counting distributes over trace concatenation. -/
theorem countEvent_append (e : Event) (xs ys : List Event) :
    countEvent e (xs ++ ys) = countEvent e xs + countEvent e ys := by
  simp [countEvent]

/-- A block of `"Waiting for chunk"` log lines contains no other event. -/
theorem countEvent_waits (e : Event) (n : Nat)
    (h : decide (Event.logWaiting = e) = false) :
    countEvent e (List.replicate n Event.logWaiting) = 0 := by
  induction n with
  | zero => rfl
  | succ n ih =>
      rw [List.replicate_succ]
      simp only [countEvent, List.filter_cons, h]
      exact ih

/-- C2: across every iteration of the render loop, `bufferPosition` is mutated
in exactly two ways: it advances by exactly `bufferFrameCount` on each
successful `Running` iteration, it becomes zero exactly on a completed
recovery transition (timeout or starvation branch), and in every other case
(stop observed, endpoint fault, unfinished recovery) it is left unchanged —
in particular it is never decremented otherwise and never advances on a
starved or timed-out iteration. -/
theorem c2_buffer_position (cfg : Config) (bp : Nat) (i : IterInput) :
    (successIter i = true → (step cfg bp i).2.1 = bp + cfg.bufferFrameCount) ∧
    (recoveryIter i = true → (step cfg bp i).2.1 = 0) ∧
    (successIter i = false → recoveryIter i = false → (step cfg bp i).2.1 = bp) := by
  refine ⟨fun h => ?_, fun h => ?_, fun h1 h2 => ?_⟩
  · simp only [successIter, Bool.and_eq_true, Bool.not_eq_true'] at h
    obtain ⟨⟨⟨⟨⟨hA, hW⟩, hAW⟩, hCA⟩, hGB⟩, hRB⟩ := h
    rw [step_success cfg bp i hA hW hAW hCA hGB hRB]
  · simp only [recoveryIter, recoveryCompletes, Bool.and_eq_true, Bool.or_eq_true,
      Bool.not_eq_true'] at h
    obtain ⟨⟨hA, hDisj⟩, ⟨⟨⟨hS, hR⟩, hP⟩, hSt⟩⟩ := h
    rw [Option.isSome_iff_exists] at hP
    obtain ⟨a, ha⟩ := hP
    rcases hDisj with hW | ⟨hAW, hCA⟩
    · rw [step_timeout_rec cfg bp i _ RecOut.ok hA hW
        (recover_ok_events i a hS hR ha hSt)]
    · cases hW : i.waitSignaled with
      | false =>
          rw [step_timeout_rec cfg bp i _ RecOut.ok hA hW
            (recover_ok_events i a hS hR ha hSt)]
      | true =>
          rw [step_starved_rec cfg bp i _ RecOut.ok hA hW hAW hCA
            (recover_ok_events i a hS hR ha hSt)]
  · cases hA : i.activeAtTop with
    | false => rw [step_stop_top cfg bp i hA]
    | true =>
      cases hW : i.waitSignaled with
      | false =>
          rcases hrec : recover i with ⟨es, r⟩
          rw [step_timeout_rec cfg bp i es r hA hW hrec]
          rcases r with _ | hr | _
          · exfalso
            have hok : recoveryCompletes i = true := (recover_ok_iff i).mp (by rw [hrec])
            simp [recoveryIter, hA, hW, hok] at h2
          · rfl
          · rfl
      | true =>
        cases hAW : i.activeAfterWait with
        | false => rw [step_stop_after_wait cfg bp i hA hW hAW]
        | true =>
          cases hCA : i.chunkAvail with
          | false =>
              rcases hrec : recover i with ⟨es, r⟩
              rw [step_starved_rec cfg bp i es r hA hW hAW hCA hrec]
              rcases r with _ | hr | _
              · exfalso
                have hok : recoveryCompletes i = true := (recover_ok_iff i).mp (by rw [hrec])
                simp [recoveryIter, hA, hW, hAW, hCA, hok] at h2
              · rfl
              · rfl
          | true =>
              cases hGB : FAILED i.hrGetBuffer with
              | true => simp [step, hA, hW, hAW, hCA, hGB]
              | false =>
                cases hRB : FAILED i.hrReleaseBuffer with
                | true => simp [step, hA, hW, hAW, hCA, hGB, hRB]
                | false =>
                    exfalso
                    simp [successIter, hA, hW, hAW, hCA, hGB, hRB] at h1

/-- Witness for C2: a successful iteration advances 0 to 480, a starved
iteration with a completing recovery resets 480 to 0, and a stopped iteration
leaves 480 unchanged. -/
theorem c2_witness :
    (step ⟨48000, 10000000, 480⟩ 0 ⟨true, true, true, 0, 10000000, true, [], 0, 0, 0, 0, 0⟩).2.1 = 480 ∧
    (step ⟨48000, 10000000, 480⟩ 480 ⟨true, true, true, 0, 10000000, false, [(true, true)], 0, 0, 0, 0, 0⟩).2.1 = 0 ∧
    (step ⟨48000, 10000000, 480⟩ 480 ⟨false, true, true, 0, 10000000, true, [], 0, 0, 0, 0, 0⟩).2.1 = 480 := by
  refine ⟨?_, ?_, ?_⟩
  · have h := (c2_buffer_position ⟨48000, 10000000, 480⟩ 0
      ⟨true, true, true, 0, 10000000, true, [], 0, 0, 0, 0, 0⟩).1 (by decide)
    simpa using h
  · exact (c2_buffer_position ⟨48000, 10000000, 480⟩ 480
      ⟨true, true, true, 0, 10000000, false, [(true, true)], 0, 0, 0, 0, 0⟩).2.1 (by decide)
  · exact (c2_buffer_position ⟨48000, 10000000, 480⟩ 480
      ⟨false, true, true, 0, 10000000, true, [], 0, 0, 0, 0, 0⟩).2.2 (by decide) (by decide)

/-- C3: whenever the source returns no frames (starvation) while the loop is
active, the iteration stops and resets the endpoint, polls `waitForChunk` with
a bounded interval (logging once per unsuccessful poll) until data is
available, restarts the endpoint, resets `bufferPosition` to zero and
continues the loop in `Running`; the endpoint is stopped, reset and restarted
exactly once in that iteration. -/
theorem c3_starvation_recovery (cfg : Config) (bp : Nat) (i : IterInput)
    (rest : List IterInput)
    (hA : i.activeAtTop = true) (hW : i.waitSignaled = true)
    (hAW : i.activeAfterWait = true) (hCA : i.chunkAvail = false)
    (hS : FAILED i.hrStop = false) (hR : FAILED i.hrReset = false)
    (hP : pollExit i.poll = some true) (hSt : FAILED i.hrStart = false) :
    step cfg bp i =
      ([Event.getPosition i.clockPos,
        Event.getChunk (driftArg bp i.clockPos cfg.sampleRate cfg.frequency) false,
        Event.logFailedChunk, Event.epStop, Event.epReset] ++
         List.replicate (pollLogs i.poll) Event.logWaiting ++
         [Event.epStart, Event.bpSet 0], 0, Control.next) ∧
    countEvent Event.epStop (step cfg bp i).1 = 1 ∧
    countEvent Event.epReset (step cfg bp i).1 = 1 ∧
    countEvent Event.epStart (step cfg bp i).1 = 1 ∧
    run cfg bp (i :: rest) =
      ((step cfg bp i).1 ++ (run cfg 0 rest).1,
       (run cfg 0 rest).2.1, (run cfg 0 rest).2.2) := by
  have hstep := step_starved_rec cfg bp i _ RecOut.ok hA hW hAW hCA
    (recover_ok_events i true hS hR hP hSt)
  have hstep' : step cfg bp i =
      ([Event.getPosition i.clockPos,
        Event.getChunk (driftArg bp i.clockPos cfg.sampleRate cfg.frequency) false,
        Event.logFailedChunk, Event.epStop, Event.epReset] ++
         List.replicate (pollLogs i.poll) Event.logWaiting ++
         [Event.epStart, Event.bpSet 0], 0, Control.next) := by
    rw [hstep]; simp
  refine ⟨hstep', ?_, ?_, ?_, ?_⟩
  · rw [hstep', countEvent_append, countEvent_append, countEvent_waits _ _ (by decide)]
    rfl
  · rw [hstep', countEvent_append, countEvent_append, countEvent_waits _ _ (by decide)]
    rfl
  · rw [hstep', countEvent_append, countEvent_append, countEvent_waits _ _ (by decide)]
    rfl
  · have hrun := run_cons_next cfg bp i rest _ 0 hstep'
    rw [hstep']
    exact hrun

/-- Witness for C3 at concrete inputs: a starved iteration at
`bufferPosition = 960` with one unsuccessful poll before data arrives. -/
theorem c3_witness :
    step ⟨48000, 10000000, 480⟩ 960
        ⟨true, true, true, 0, 10000000, false, [(true, false), (true, true)], 0, 0, 0, 0, 0⟩ =
      ([Event.getPosition 0, Event.getChunk 20000 false, Event.logFailedChunk,
        Event.epStop, Event.epReset, Event.logWaiting, Event.epStart, Event.bpSet 0],
       0, Control.next) ∧
    countEvent Event.epStop
      (step ⟨48000, 10000000, 480⟩ 960
        ⟨true, true, true, 0, 10000000, false, [(true, false), (true, true)], 0, 0, 0, 0, 0⟩).1 = 1 := by
  obtain ⟨h1, h2, -, -, -⟩ := c3_starvation_recovery ⟨48000, 10000000, 480⟩ 960
    ⟨true, true, true, 0, 10000000, false, [(true, false), (true, true)], 0, 0, 0, 0, 0⟩ []
    rfl rfl rfl rfl (by decide) (by decide) (by decide) (by decide)
  refine ⟨?_, h2⟩
  rw [h1]
  decide

/-- C4: a pacing timeout is logged, performs the full recovery transition
(stop, reset, poll, restart, `bufferPosition = 0`) and then breaks out of the
render loop, so the worker performs no further iterations regardless of what
the environment would have supplied next. -/
theorem c4_timeout_breaks (cfg : Config) (bp : Nat) (i : IterInput)
    (rest : List IterInput) (b : Bool)
    (hA : i.activeAtTop = true) (hW : i.waitSignaled = false)
    (hS : FAILED i.hrStop = false) (hR : FAILED i.hrReset = false)
    (hP : pollExit i.poll = some b) (hSt : FAILED i.hrStart = false) :
    step cfg bp i =
      (Event.logTimeout :: ([Event.epStop, Event.epReset] ++
         List.replicate (pollLogs i.poll) Event.logWaiting ++
         [Event.epStart, Event.bpSet 0]), 0, Control.timeoutBreak) ∧
    run cfg bp (i :: rest) = ((step cfg bp i).1, 0, RunEnd.timeoutBreak) := by
  have hstep := step_timeout_rec cfg bp i _ RecOut.ok hA hW
    (recover_ok_events i b hS hR hP hSt)
  have hstep' : step cfg bp i =
      (Event.logTimeout :: ([Event.epStop, Event.epReset] ++
         List.replicate (pollLogs i.poll) Event.logWaiting ++
         [Event.epStart, Event.bpSet 0]), 0, Control.timeoutBreak) := by
    rw [hstep]
  refine ⟨hstep', ?_⟩
  have hrun := run_cons_timeoutBreak cfg bp i rest _ 0 hstep'
  rw [hstep']
  exact hrun

/-- Witness for C4: a timed-out iteration at `bufferPosition = 1440` with an
immediately successful poll breaks out of the loop with the recovery trace. -/
theorem c4_witness :
    step ⟨48000, 10000000, 480⟩ 1440
        ⟨true, false, true, 0, 10000000, true, [(true, true)], 0, 0, 0, 0, 0⟩ =
      ([Event.logTimeout, Event.epStop, Event.epReset, Event.epStart, Event.bpSet 0],
       0, Control.timeoutBreak) ∧
    run ⟨48000, 10000000, 480⟩ 1440
        (⟨true, false, true, 0, 10000000, true, [(true, true)], 0, 0, 0, 0, 0⟩ ::
          [⟨true, true, true, 0, 10000000, true, [], 0, 0, 0, 0, 0⟩]) =
      ([Event.logTimeout, Event.epStop, Event.epReset, Event.epStart, Event.bpSet 0],
       0, RunEnd.timeoutBreak) := by
  obtain ⟨h1, h2⟩ := c4_timeout_breaks ⟨48000, 10000000, 480⟩ 1440
    ⟨true, false, true, 0, 10000000, true, [(true, true)], 0, 0, 0, 0, 0⟩
    [⟨true, true, true, 0, 10000000, true, [], 0, 0, 0, 0, 0⟩] true
    rfl rfl (by decide) (by decide) (by decide) (by decide)
  constructor
  · rw [h1]; decide
  · rw [h2, h1]; decide

/-- C5: the stop signal is observed at the loop top, immediately after the
pacing wait, and during the recovery poll; in each case the loop exits and no
endpoint buffer commit (`GetBuffer`/`ReleaseBuffer`) happens after the signal
is observed: a stop at the loop top or after the wait produces no events at
all, a stop during the starvation-recovery poll ends the run (once the stop
signal is still set at the next loop top) with no commit event anywhere in the
remaining trace, and a stop during the timeout-recovery poll is followed by
the break with no commit event either. -/
theorem c5_stop_signal (cfg : Config) (bp : Nat) (i j : IterInput)
    (rest : List IterInput) :
    (i.activeAtTop = false → run cfg bp (i :: rest) = ([], bp, RunEnd.stopTop)) ∧
    (i.activeAtTop = true → i.waitSignaled = true → i.activeAfterWait = false →
      run cfg bp (i :: rest) = ([], bp, RunEnd.stopAfterWait)) ∧
    (i.activeAtTop = true → i.waitSignaled = true → i.activeAfterWait = true →
      i.chunkAvail = false → FAILED i.hrStop = false → FAILED i.hrReset = false →
      pollExit i.poll = some false → FAILED i.hrStart = false →
      j.activeAtTop = false →
      Event.getBuffer ∉ (run cfg bp (i :: j :: rest)).1 ∧
      Event.releaseBuffer ∉ (run cfg bp (i :: j :: rest)).1 ∧
      (run cfg bp (i :: j :: rest)).2.2 = RunEnd.stopTop) ∧
    (i.activeAtTop = true → i.waitSignaled = false →
      FAILED i.hrStop = false → FAILED i.hrReset = false →
      pollExit i.poll = some false → FAILED i.hrStart = false →
      Event.getBuffer ∉ (run cfg bp (i :: rest)).1 ∧
      Event.releaseBuffer ∉ (run cfg bp (i :: rest)).1 ∧
      (run cfg bp (i :: rest)).2.2 = RunEnd.timeoutBreak) := by
  refine ⟨fun hA => ?_, fun hA hW hAW => ?_, ?_, ?_⟩
  · rw [run_cons_stopTop cfg bp i rest _ bp (step_stop_top cfg bp i hA)]
  · rw [run_cons_stopAfterWait cfg bp i rest _ bp
      (step_stop_after_wait cfg bp i hA hW hAW)]
  · intro hA hW hAW hCA hS hR hP hSt hj
    have hstep := step_starved_rec cfg bp i _ RecOut.ok hA hW hAW hCA
      (recover_ok_events i false hS hR hP hSt)
    have hstep' : step cfg bp i =
        ([Event.getPosition i.clockPos,
          Event.getChunk (driftArg bp i.clockPos cfg.sampleRate cfg.frequency) false,
          Event.logFailedChunk, Event.epStop, Event.epReset] ++
           List.replicate (pollLogs i.poll) Event.logWaiting ++
           [Event.epStart, Event.bpSet 0], 0, Control.next) := by
      rw [hstep]; simp
    have hrun := run_cons_next cfg bp i (j :: rest) _ 0 hstep'
    have hrun2 := run_cons_stopTop cfg 0 j rest _ 0 (step_stop_top cfg 0 j hj)
    rw [hrun, hrun2]
    refine ⟨?_, ?_, rfl⟩ <;>
      simp [List.mem_append, List.mem_replicate]
  · intro hA hW hS hR hP hSt
    have hstep := step_timeout_rec cfg bp i _ RecOut.ok hA hW
      (recover_ok_events i false hS hR hP hSt)
    have hstep' : step cfg bp i =
        (Event.logTimeout :: ([Event.epStop, Event.epReset] ++
           List.replicate (pollLogs i.poll) Event.logWaiting ++
           [Event.epStart, Event.bpSet 0]), 0, Control.timeoutBreak) := by
      rw [hstep]
    have hrun := run_cons_timeoutBreak cfg bp i rest _ 0 hstep'
    rw [hrun]
    refine ⟨?_, ?_, rfl⟩ <;>
      simp [List.mem_append, List.mem_replicate]

/-- Witness for C5 at concrete inputs: the stop signal set at the loop top, set
right after the pacing wait, set during a starvation-recovery poll, and set
during a timeout-recovery poll. -/
theorem c5_witness :
    run ⟨48000, 10000000, 480⟩ 960
        (⟨false, true, true, 0, 10000000, true, [], 0, 0, 0, 0, 0⟩ :: []) =
      ([], 960, RunEnd.stopTop) ∧
    run ⟨48000, 10000000, 480⟩ 960
        (⟨true, true, false, 0, 10000000, true, [], 0, 0, 0, 0, 0⟩ :: []) =
      ([], 960, RunEnd.stopAfterWait) ∧
    (Event.getBuffer ∉
      (run ⟨48000, 10000000, 480⟩ 960
        (⟨true, true, true, 0, 10000000, false, [(false, false)], 0, 0, 0, 0, 0⟩ ::
         ⟨false, true, true, 0, 10000000, true, [], 0, 0, 0, 0, 0⟩ :: [])).1 ∧
     (run ⟨48000, 10000000, 480⟩ 960
        (⟨true, true, true, 0, 10000000, false, [(false, false)], 0, 0, 0, 0, 0⟩ ::
         ⟨false, true, true, 0, 10000000, true, [], 0, 0, 0, 0, 0⟩ :: [])).2.2 =
       RunEnd.stopTop) ∧
    (Event.getBuffer ∉
      (run ⟨48000, 10000000, 480⟩ 960
        (⟨true, false, true, 0, 10000000, true, [(false, false)], 0, 0, 0, 0, 0⟩ :: [])).1 ∧
     (run ⟨48000, 10000000, 480⟩ 960
        (⟨true, false, true, 0, 10000000, true, [(false, false)], 0, 0, 0, 0, 0⟩ :: [])).2.2 =
       RunEnd.timeoutBreak) := by
  refine ⟨?_, ?_, ?_, ?_⟩
  · exact (c5_stop_signal ⟨48000, 10000000, 480⟩ 960
      ⟨false, true, true, 0, 10000000, true, [], 0, 0, 0, 0, 0⟩
      ⟨false, true, true, 0, 10000000, true, [], 0, 0, 0, 0, 0⟩ []).1 rfl
  · exact (c5_stop_signal ⟨48000, 10000000, 480⟩ 960
      ⟨true, true, false, 0, 10000000, true, [], 0, 0, 0, 0, 0⟩
      ⟨false, true, true, 0, 10000000, true, [], 0, 0, 0, 0, 0⟩ []).2.1 rfl rfl rfl
  · obtain ⟨h1, -, h3⟩ := (c5_stop_signal ⟨48000, 10000000, 480⟩ 960
      ⟨true, true, true, 0, 10000000, false, [(false, false)], 0, 0, 0, 0, 0⟩
      ⟨false, true, true, 0, 10000000, true, [], 0, 0, 0, 0, 0⟩ []).2.2.1
      rfl rfl rfl rfl (by decide) (by decide) (by decide) (by decide) rfl
    exact ⟨h1, h3⟩
  · obtain ⟨h1, -, h3⟩ := (c5_stop_signal ⟨48000, 10000000, 480⟩ 960
      ⟨true, false, true, 0, 10000000, true, [(false, false)], 0, 0, 0, 0, 0⟩
      ⟨false, true, true, 0, 10000000, true, [], 0, 0, 0, 0, 0⟩ []).2.2.2
      rfl rfl (by decide) (by decide) (by decide) (by decide)
    exact ⟨h1, h3⟩

/-- C9: a stop signal observed while polling during a recovery does not
prevent the endpoint restart: in the starvation branch the iteration still
emits `epStart` and still resets `bufferPosition` to zero, then the loop
observes the stop at the next top and exits; in the timeout branch the
iteration still emits `epStart` before breaking. -/
theorem c9_stop_during_recovery (cfg : Config) (bp : Nat) (i j : IterInput)
    (rest : List IterInput)
    (hS : FAILED i.hrStop = false) (hR : FAILED i.hrReset = false)
    (hP : pollExit i.poll = some false) (hSt : FAILED i.hrStart = false) :
    (i.activeAtTop = true → i.waitSignaled = true → i.activeAfterWait = true →
      i.chunkAvail = false → j.activeAtTop = false →
      Event.epStart ∈ (step cfg bp i).1 ∧ (step cfg bp i).2.1 = 0 ∧
      (step cfg bp i).2.2 = Control.next ∧
      run cfg bp (i :: j :: rest) = ((step cfg bp i).1, 0, RunEnd.stopTop)) ∧
    (i.activeAtTop = true → i.waitSignaled = false →
      Event.epStart ∈ (step cfg bp i).1 ∧ (step cfg bp i).2.1 = 0 ∧
      (step cfg bp i).2.2 = Control.timeoutBreak) := by
  constructor
  · intro hA hW hAW hCA hj
    have hstep := step_starved_rec cfg bp i _ RecOut.ok hA hW hAW hCA
      (recover_ok_events i false hS hR hP hSt)
    have hstep' : step cfg bp i =
        ([Event.getPosition i.clockPos,
          Event.getChunk (driftArg bp i.clockPos cfg.sampleRate cfg.frequency) false,
          Event.logFailedChunk, Event.epStop, Event.epReset] ++
           List.replicate (pollLogs i.poll) Event.logWaiting ++
           [Event.epStart, Event.bpSet 0], 0, Control.next) := by
      rw [hstep]; simp
    have hrun := run_cons_next cfg bp i (j :: rest) _ 0 hstep'
    have hrun2 := run_cons_stopTop cfg 0 j rest _ 0 (step_stop_top cfg 0 j hj)
    refine ⟨?_, ?_, ?_, ?_⟩
    · rw [hstep']; simp
    · rw [hstep']
    · rw [hstep']
    · rw [hrun, hrun2, hstep']
      simp
  · intro hA hW
    have hstep := step_timeout_rec cfg bp i _ RecOut.ok hA hW
      (recover_ok_events i false hS hR hP hSt)
    have hstep' : step cfg bp i =
        (Event.logTimeout :: ([Event.epStop, Event.epReset] ++
           List.replicate (pollLogs i.poll) Event.logWaiting ++
           [Event.epStart, Event.bpSet 0]), 0, Control.timeoutBreak) := by
      rw [hstep]
    refine ⟨?_, ?_, ?_⟩
    · rw [hstep']; simp
    · rw [hstep']
    · rw [hstep']

/-- Witness for C9: a stop arriving at the first poll of a starvation recovery
and of a timeout recovery; both still restart the endpoint. -/
theorem c9_witness :
    (Event.epStart ∈
      (step ⟨48000, 10000000, 480⟩ 2400
        ⟨true, true, true, 0, 10000000, false, [(false, false)], 0, 0, 0, 0, 0⟩).1 ∧
     (step ⟨48000, 10000000, 480⟩ 2400
        ⟨true, true, true, 0, 10000000, false, [(false, false)], 0, 0, 0, 0, 0⟩).2.1 = 0) ∧
    (Event.epStart ∈
      (step ⟨48000, 10000000, 480⟩ 2400
        ⟨true, false, true, 0, 10000000, true, [(false, false)], 0, 0, 0, 0, 0⟩).1 ∧
     (step ⟨48000, 10000000, 480⟩ 2400
        ⟨true, false, true, 0, 10000000, true, [(false, false)], 0, 0, 0, 0, 0⟩).2.1 = 0) := by
  constructor
  · obtain ⟨h1, h2, -, -⟩ := (c9_stop_during_recovery ⟨48000, 10000000, 480⟩ 2400
      ⟨true, true, true, 0, 10000000, false, [(false, false)], 0, 0, 0, 0, 0⟩
      ⟨false, true, true, 0, 10000000, true, [], 0, 0, 0, 0, 0⟩ []
      (by decide) (by decide) (by decide) (by decide)).1 rfl rfl rfl rfl rfl
    exact ⟨h1, h2⟩
  · obtain ⟨h1, h2, -⟩ := (c9_stop_during_recovery ⟨48000, 10000000, 480⟩ 2400
      ⟨true, false, true, 0, 10000000, true, [(false, false)], 0, 0, 0, 0, 0⟩
      ⟨false, true, true, 0, 10000000, true, [], 0, 0, 0, 0, 0⟩ []
      (by decide) (by decide) (by decide) (by decide)).2 rfl rfl
    exact ⟨h1, h2⟩

/-- C7 (amended): every `Running` iteration reads the clock position afresh
(the `getPosition` event carries this iteration's reading) and computes the
drift from that fresh position — but the tick frequency it uses is the single
reading taken before the loop (`Config.frequency`): the iteration's outcome is
entirely independent of the frequency the endpoint would currently report
(`clockFreqNow`). -/
theorem c7_fresh_position_stale_frequency (cfg : Config) (bp : Nat)
    (i : IterInput) (f' : Nat)
    (hA : i.activeAtTop = true) (hW : i.waitSignaled = true)
    (hAW : i.activeAfterWait = true) :
    Event.getPosition i.clockPos ∈ (step cfg bp i).1 ∧
    Event.getChunk (driftArg bp i.clockPos cfg.sampleRate cfg.frequency)
      i.chunkAvail ∈ (step cfg bp i).1 ∧
    step cfg bp { i with clockFreqNow := f' } = step cfg bp i := by
  have hshape : ∀ e : Event,
      e = Event.getPosition i.clockPos ∨
      e = Event.getChunk (driftArg bp i.clockPos cfg.sampleRate cfg.frequency)
            i.chunkAvail →
      e ∈ (step cfg bp i).1 := by
    intro e he
    cases hCA : i.chunkAvail with
    | true =>
        cases hGB : FAILED i.hrGetBuffer with
        | true =>
            rcases he with he | he <;>
              simp [step, hA, hW, hAW, hCA, hGB, he]
        | false =>
            cases hRB : FAILED i.hrReleaseBuffer with
            | true =>
                rcases he with he | he <;>
                  simp [step, hA, hW, hAW, hCA, hGB, hRB, he]
            | false =>
                rcases he with he | he <;>
                  simp [step, hA, hW, hAW, hCA, hGB, hRB, he]
    | false =>
        rcases hrec : recover i with ⟨es, r⟩
        rw [step_starved_rec cfg bp i es r hA hW hAW hCA hrec]
        rcases he with he | he <;> rcases r <;> simp [he, hCA]
  refine ⟨hshape _ (Or.inl rfl), hshape _ (Or.inr rfl), rfl⟩

/-- Witness for C7 (amended) at concrete inputs: the iteration's trace shows
the fresh position 5000000 and a drift computed with the pre-loop frequency,
and replacing the endpoint's current frequency by 123 changes nothing. -/
theorem c7_witness :
    Event.getPosition 5000000 ∈
      (step ⟨48000, 10000000, 480⟩ 48000
        ⟨true, true, true, 5000000, 20000000, true, [], 0, 0, 0, 0, 0⟩).1 ∧
    Event.getChunk (driftArg 48000 5000000 48000 10000000) true ∈
      (step ⟨48000, 10000000, 480⟩ 48000
        ⟨true, true, true, 5000000, 20000000, true, [], 0, 0, 0, 0, 0⟩).1 ∧
    step ⟨48000, 10000000, 480⟩ 48000
        { (⟨true, true, true, 5000000, 20000000, true, [], 0, 0, 0, 0, 0⟩ : IterInput)
          with clockFreqNow := 123 } =
      step ⟨48000, 10000000, 480⟩ 48000
        ⟨true, true, true, 5000000, 20000000, true, [], 0, 0, 0, 0, 0⟩ :=
  c7_fresh_position_stale_frequency ⟨48000, 10000000, 480⟩ 48000
    ⟨true, true, true, 5000000, 20000000, true, [], 0, 0, 0, 0, 0⟩ 123 rfl rfl rfl

/-- Counterexample to C7 as stated: in an iteration where the endpoint's
current clock frequency (20000000) differs from the one sampled before the
loop (10000000), the chunk request still uses a drift of 500000 microseconds
computed with the stale pre-loop frequency, not the 750000 microseconds that
the freshly reported frequency would give — the frequency is never re-sampled
inside the loop. -/
theorem c7_counterexample :
    (step ⟨48000, 10000000, 480⟩ 48000
        ⟨true, true, true, 5000000, 20000000, true, [], 0, 0, 0, 0, 0⟩).1 =
      [Event.getPosition 5000000, Event.getChunk 500000 true, Event.adjustVolume,
       Event.getBuffer, Event.releaseBuffer, Event.bpSet 48480] ∧
    driftArg 48000 5000000 48000 20000000 = 750000 ∧
    (500000 : Int) ≠ 750000 := by
  refine ⟨?_, by decide, by decide⟩
  rw [step_success ⟨48000, 10000000, 480⟩ 48000
    ⟨true, true, true, 5000000, 20000000, true, [], 0, 0, 0, 0, 0⟩
    rfl rfl rfl rfl (by decide) (by decide)]
  decide

/-- Successive values assigned to `bufferPosition` along a trace. -/
def bpValues (es : List Event) : List Nat :=
  es.filterMap (fun e => match e with | Event.bpSet v => some v | _ => none)

/-- Checks that volume adjustment and buffer commit come in indivisible
`adjustVolume`, `getBuffer`, `releaseBuffer` triples: every chunk that is
volume-adjusted is committed right afterwards, and every commit is preceded
by exactly one volume adjustment. -/
def commitsPaired : List Event → Bool
  | [] => true
  | Event.adjustVolume :: Event.getBuffer :: Event.releaseBuffer :: rest =>
      commitsPaired rest
  | Event.adjustVolume :: _ => false
  | Event.getBuffer :: _ => false
  | Event.releaseBuffer :: _ => false
  | _ :: rest => commitsPaired rest

/-- The C8 session constants: a Period of 480 frames at 48 kHz (10 ms), with a
hardware clock running at 10 MHz. -/
def scenarioCfg : Config := ⟨48000, 10000000, 480⟩

/-- A C8 on-time iteration: the source delivers a chunk; `pos` is the hardware
clock reading of that period. -/
def scenarioSuccess (pos : Nat) : IterInput :=
  ⟨true, true, true, pos, 10000000, true, [], 0, 0, 0, 0, 0⟩

/-- The C8 starvation iteration: the source has no chunk; the 300 ms gap shows
up as three unsuccessful 100 ms polls before data arrives. -/
def scenarioStarved : IterInput :=
  ⟨true, true, true, 500000, 10000000, false,
   [(true, false), (true, false), (true, false), (true, true)], 0, 0, 0, 0, 0⟩

/-- The C8 final iteration: the session is stopped at the loop top. -/
def scenarioStop : IterInput :=
  ⟨false, true, true, 0, 10000000, true, [], 0, 0, 0, 0, 0⟩

/-- The C8 environment: 5 chunks on time, one 300 ms starvation gap, 5 more
chunks, then stop. -/
def scenario : List IterInput :=
  [scenarioSuccess 0, scenarioSuccess 100000, scenarioSuccess 200000,
   scenarioSuccess 300000, scenarioSuccess 400000,
   scenarioStarved,
   scenarioSuccess 0, scenarioSuccess 100000, scenarioSuccess 200000,
   scenarioSuccess 300000, scenarioSuccess 400000,
   scenarioStop]

/-- C8: in the end-to-end scenario (Period 480 frames at 48 kHz, 5 chunks on
time, one 300 ms starvation gap, 5 more chunks), the loop makes exactly one
recovery excursion (one endpoint stop, reset and restart), `bufferPosition`
takes the value sequence 480, 960, ..., 2400, 0, 480, ..., 2400, all 10
delivered chunks are volume-adjusted exactly once, each immediately before its
commit, and the run ends through the stop signal. -/
theorem c8_end_to_end :
    bpValues (run scenarioCfg 0 scenario).1 =
      [480, 960, 1440, 1920, 2400, 0, 480, 960, 1440, 1920, 2400] ∧
    countEvent Event.epStop (run scenarioCfg 0 scenario).1 = 1 ∧
    countEvent Event.epReset (run scenarioCfg 0 scenario).1 = 1 ∧
    countEvent Event.epStart (run scenarioCfg 0 scenario).1 = 1 ∧
    countEvent (Event.getChunk 0 true) (run scenarioCfg 0 scenario).1 = 10 ∧
    countEvent Event.adjustVolume (run scenarioCfg 0 scenario).1 = 10 ∧
    countEvent Event.getBuffer (run scenarioCfg 0 scenario).1 = 10 ∧
    countEvent Event.releaseBuffer (run scenarioCfg 0 scenario).1 = 10 ∧
    commitsPaired (run scenarioCfg 0 scenario).1 = true ∧
    (run scenarioCfg 0 scenario).2.2 = RunEnd.stopTop := by
  decide

/-- C6 (amended): starvation and pacing timeouts are absorbed inside the
render loop — the iteration only logs and continues (starvation) or breaks
(timeout), never faulting, because `CHECK_HR(ERROR_TIMEOUT)` checks a
positive value; every FAILED `HRESULT` from an endpoint operation in the loop
(`GetBuffer`, `ReleaseBuffer`, `Stop`, `Reset`, `Start`) faults the iteration
and ends the run at once with no retry; and every FAILED `HRESULT` in the
setup chain (`Initialize`, `GetService`, `Start`) aborts the setup — with the
single exception that a first `Initialize` failing with
`AUDCLNT_E_BUFFER_SIZE_NOT_ALIGNED` is retried once with an aligned buffer
(see `c6_counterexample`), the retry's own failure aborting. -/
theorem c6_error_propagation (cfg : Config) (bp : Nat) (i : IterInput)
    (rest : List IterInput) (s : SetupInput) :
    (∀ b, i.activeAtTop = true → i.waitSignaled = false →
      FAILED i.hrStop = false → FAILED i.hrReset = false →
      pollExit i.poll = some b → FAILED i.hrStart = false →
      (step cfg bp i).2.2 = Control.timeoutBreak ∧
      Event.logTimeout ∈ (step cfg bp i).1) ∧
    (∀ b, i.activeAtTop = true → i.waitSignaled = true →
      i.activeAfterWait = true → i.chunkAvail = false →
      FAILED i.hrStop = false → FAILED i.hrReset = false →
      pollExit i.poll = some b → FAILED i.hrStart = false →
      (step cfg bp i).2.2 = Control.next ∧
      Event.logFailedChunk ∈ (step cfg bp i).1) ∧
    (i.activeAtTop = true → i.waitSignaled = true → i.activeAfterWait = true →
      i.chunkAvail = true → FAILED i.hrGetBuffer = true →
      (step cfg bp i).2.2 = Control.fault i.hrGetBuffer) ∧
    (i.activeAtTop = true → i.waitSignaled = true → i.activeAfterWait = true →
      i.chunkAvail = true → FAILED i.hrGetBuffer = false →
      FAILED i.hrReleaseBuffer = true →
      (step cfg bp i).2.2 = Control.fault i.hrReleaseBuffer) ∧
    (i.activeAtTop = true →
      (i.waitSignaled = false ∨
        (i.waitSignaled = true ∧ i.activeAfterWait = true ∧ i.chunkAvail = false)) →
      FAILED i.hrStop = true →
      (step cfg bp i).2.2 = Control.fault i.hrStop) ∧
    (i.activeAtTop = true →
      (i.waitSignaled = false ∨
        (i.waitSignaled = true ∧ i.activeAfterWait = true ∧ i.chunkAvail = false)) →
      FAILED i.hrStop = false → FAILED i.hrReset = true →
      (step cfg bp i).2.2 = Control.fault i.hrReset) ∧
    (∀ b, i.activeAtTop = true →
      (i.waitSignaled = false ∨
        (i.waitSignaled = true ∧ i.activeAfterWait = true ∧ i.chunkAvail = false)) →
      FAILED i.hrStop = false → FAILED i.hrReset = false →
      pollExit i.poll = some b → FAILED i.hrStart = true →
      (step cfg bp i).2.2 = Control.fault i.hrStart) ∧
    (∀ es bp' hr, step cfg bp i = (es, bp', Control.fault hr) →
      run cfg bp (i :: rest) = (es, bp', RunEnd.fault hr)) ∧
    (FAILED s.hrCoCreate = false → FAILED s.hrGetDefaultEndpoint = false →
      FAILED s.hrEnumEndpoints = false → FAILED s.hrActivate = false →
      FAILED s.hrIsFormatSupported = false → FAILED s.hrGetDevicePeriod = false →
      (s.hrInitialize == audclntBufSizeNotAligned) = false →
      FAILED s.hrInitialize = true →
      setup s = Except.error s.hrInitialize) ∧
    (FAILED s.hrCoCreate = false → FAILED s.hrGetDefaultEndpoint = false →
      FAILED s.hrEnumEndpoints = false → FAILED s.hrActivate = false →
      FAILED s.hrIsFormatSupported = false → FAILED s.hrGetDevicePeriod = false →
      s.hrInitialize = audclntBufSizeNotAligned →
      FAILED s.hrGetBufferSizeAligned = false → FAILED s.hrActivate2 = false →
      FAILED s.hrInitialize2 = true →
      setup s = Except.error s.hrInitialize2) ∧
    (FAILED s.hrCoCreate = false → FAILED s.hrGetDefaultEndpoint = false →
      FAILED s.hrEnumEndpoints = false → FAILED s.hrActivate = false →
      FAILED s.hrIsFormatSupported = false → FAILED s.hrGetDevicePeriod = false →
      (s.hrInitialize == audclntBufSizeNotAligned) = false →
      FAILED s.hrInitialize = false → s.eventCreated = true →
      FAILED s.hrSetEventHandle = false → FAILED s.hrGetBufferSize = false →
      FAILED s.hrGetServiceRender = true →
      setup s = Except.error s.hrGetServiceRender) ∧
    (FAILED s.hrCoCreate = false → FAILED s.hrGetDefaultEndpoint = false →
      FAILED s.hrEnumEndpoints = false → FAILED s.hrActivate = false →
      FAILED s.hrIsFormatSupported = false → FAILED s.hrGetDevicePeriod = false →
      (s.hrInitialize == audclntBufSizeNotAligned) = false →
      FAILED s.hrInitialize = false → s.eventCreated = true →
      FAILED s.hrSetEventHandle = false → FAILED s.hrGetBufferSize = false →
      FAILED s.hrGetServiceRender = false → FAILED s.hrGetServiceClock = true →
      setup s = Except.error s.hrGetServiceClock) ∧
    (FAILED s.hrCoCreate = false → FAILED s.hrGetDefaultEndpoint = false →
      FAILED s.hrEnumEndpoints = false → FAILED s.hrActivate = false →
      FAILED s.hrIsFormatSupported = false → FAILED s.hrGetDevicePeriod = false →
      (s.hrInitialize == audclntBufSizeNotAligned) = false →
      FAILED s.hrInitialize = false → s.eventCreated = true →
      FAILED s.hrSetEventHandle = false → FAILED s.hrGetBufferSize = false →
      FAILED s.hrGetServiceRender = false → FAILED s.hrGetServiceClock = false →
      s.taskAcquired = true → FAILED s.hrStart = true →
      setup s = Except.error s.hrStart) := by
  refine ⟨?_, ?_, ?_, ?_, ?_, ?_, ?_, ?_, ?_, ?_, ?_, ?_, ?_⟩
  · intro b hA hW hS hR hP hSt
    have hstep := step_timeout_rec cfg bp i _ RecOut.ok hA hW
      (recover_ok_events i b hS hR hP hSt)
    have hstep' : step cfg bp i =
        (Event.logTimeout :: ([Event.epStop, Event.epReset] ++
           List.replicate (pollLogs i.poll) Event.logWaiting ++
           [Event.epStart, Event.bpSet 0]), 0, Control.timeoutBreak) := by
      rw [hstep]
    rw [hstep']
    exact ⟨rfl, by simp⟩
  · intro b hA hW hAW hCA hS hR hP hSt
    have hstep := step_starved_rec cfg bp i _ RecOut.ok hA hW hAW hCA
      (recover_ok_events i b hS hR hP hSt)
    have hstep' : step cfg bp i =
        ([Event.getPosition i.clockPos,
          Event.getChunk (driftArg bp i.clockPos cfg.sampleRate cfg.frequency) false,
          Event.logFailedChunk, Event.epStop, Event.epReset] ++
           List.replicate (pollLogs i.poll) Event.logWaiting ++
           [Event.epStart, Event.bpSet 0], 0, Control.next) := by
      rw [hstep]; simp
    rw [hstep']
    exact ⟨rfl, by simp⟩
  · intro hA hW hAW hCA hGB
    simp [step, hA, hW, hAW, hCA, hGB]
  · intro hA hW hAW hCA hGB hRB
    simp [step, hA, hW, hAW, hCA, hGB, hRB]
  · intro hA hDisj hS
    rcases hDisj with hW | ⟨hW, hAW, hCA⟩
    · simp [step, hA, hW, recover, hS, (by decide : FAILED errorTimeout = false)]
    · simp [step, hA, hW, hAW, hCA, recover, hS]
  · intro hA hDisj hS hR
    rcases hDisj with hW | ⟨hW, hAW, hCA⟩
    · simp [step, hA, hW, recover, hS, hR, (by decide : FAILED errorTimeout = false)]
    · simp [step, hA, hW, hAW, hCA, recover, hS, hR]
  · intro b hA hDisj hS hR hP hSt
    rcases hDisj with hW | ⟨hW, hAW, hCA⟩
    · simp [step, hA, hW, recover, hS, hR, hP, hSt,
        (by decide : FAILED errorTimeout = false)]
    · simp [step, hA, hW, hAW, hCA, recover, hS, hR, hP, hSt]
  · intro es bp' hr h
    exact run_cons_fault cfg bp i rest es bp' hr h
  · intro h1 h2 h3 h4 h5 h6 h7 h8
    rcases hIdx : s.deviceIdx == 0 <;>
      simp [setup, setupHRs, firstFailed, checkHR, hIdx, h1, h2, h3, h4, h5, h6, h7, h8]
  · intro h1 h2 h3 h4 h5 h6 h7 h8 h9 h10
    rcases hIdx : s.deviceIdx == 0 <;>
      simp [setup, setupHRs, firstFailed, checkHR, hIdx, h1, h2, h3, h4, h5, h6, h7,
        h8, h9, h10]
  · intro h1 h2 h3 h4 h5 h6 h7 h8 h9 h10 h11 h12
    rcases hIdx : s.deviceIdx == 0 <;>
      simp [setup, setupHRs, firstFailed, checkHR, hIdx, h1, h2, h3, h4, h5, h6, h7,
        h8, h9, h10, h11, h12]
  · intro h1 h2 h3 h4 h5 h6 h7 h8 h9 h10 h11 h12 h13
    rcases hIdx : s.deviceIdx == 0 <;>
      simp [setup, setupHRs, firstFailed, checkHR, hIdx, h1, h2, h3, h4, h5, h6, h7,
        h8, h9, h10, h11, h12, h13]
  · intro h1 h2 h3 h4 h5 h6 h7 h8 h9 h10 h11 h12 h13 h14 h15
    rcases hIdx : s.deviceIdx == 0 <;>
      simp [setup, setupHRs, firstFailed, checkHR, hIdx, h1, h2, h3, h4, h5, h6, h7,
        h8, h9, h10, h11, h12, h13, h14, h15]

/-- Witness for C6 (amended), exercising each conjunct at concrete inputs:
an absorbed timeout, an absorbed starvation, a fault from each loop endpoint
operation, the fault ending the run unretried, and a fault from each checked
setup operation. -/
theorem c6_witness :
    (step ⟨48000, 10000000, 480⟩ 0
      ⟨true, false, true, 0, 10000000, true, [(true, true)], 0, 0, 0, 0, 0⟩).2.2 =
        Control.timeoutBreak ∧
    (step ⟨48000, 10000000, 480⟩ 0
      ⟨true, true, true, 0, 10000000, false, [(true, true)], 0, 0, 0, 0, 0⟩).2.2 =
        Control.next ∧
    (step ⟨48000, 10000000, 480⟩ 0
      ⟨true, true, true, 0, 10000000, true, [], 0, 0, 0, -1, 0⟩).2.2 =
        Control.fault (-1) ∧
    (step ⟨48000, 10000000, 480⟩ 0
      ⟨true, true, true, 0, 10000000, true, [], 0, 0, 0, 0, -2⟩).2.2 =
        Control.fault (-2) ∧
    (step ⟨48000, 10000000, 480⟩ 0
      ⟨true, true, true, 0, 10000000, false, [(true, true)], -3, 0, 0, 0, 0⟩).2.2 =
        Control.fault (-3) ∧
    (step ⟨48000, 10000000, 480⟩ 0
      ⟨true, true, true, 0, 10000000, false, [(true, true)], 0, -4, 0, 0, 0⟩).2.2 =
        Control.fault (-4) ∧
    (step ⟨48000, 10000000, 480⟩ 0
      ⟨true, true, true, 0, 10000000, false, [(true, true)], 0, 0, -5, 0, 0⟩).2.2 =
        Control.fault (-5) ∧
    run ⟨48000, 10000000, 480⟩ 0
      (⟨true, true, true, 0, 10000000, true, [], 0, 0, 0, -1, 0⟩ ::
        [⟨true, true, true, 0, 10000000, true, [], 0, 0, 0, 0, 0⟩]) =
      ([Event.getPosition 0, Event.getChunk 0 true, Event.adjustVolume,
        Event.getBuffer], 0, RunEnd.fault (-1)) ∧
    setup ⟨0, 0, 0, 0, 0, 0, 0, -10, 0, 0, 0, true, 0, 0, 0, 0, true, 0⟩ =
      Except.error (-10) ∧
    setup ⟨0, 0, 0, 0, 0, 0, 0, audclntBufSizeNotAligned, 0, 0, -11, true,
      0, 0, 0, 0, true, 0⟩ = Except.error (-11) ∧
    setup ⟨0, 0, 0, 0, 0, 0, 0, 0, 0, 0, 0, true, 0, 0, -12, 0, true, 0⟩ =
      Except.error (-12) ∧
    setup ⟨0, 0, 0, 0, 0, 0, 0, 0, 0, 0, 0, true, 0, 0, 0, -13, true, 0⟩ =
      Except.error (-13) ∧
    setup ⟨0, 0, 0, 0, 0, 0, 0, 0, 0, 0, 0, true, 0, 0, 0, 0, true, -14⟩ =
      Except.error (-14) := by
  refine ⟨?_, ?_, ?_, ?_, ?_, ?_, ?_, ?_, ?_, ?_, ?_, ?_, ?_⟩
  · exact ((c6_error_propagation ⟨48000, 10000000, 480⟩ 0
      ⟨true, false, true, 0, 10000000, true, [(true, true)], 0, 0, 0, 0, 0⟩ []
      ⟨0, 0, 0, 0, 0, 0, 0, 0, 0, 0, 0, true, 0, 0, 0, 0, true, 0⟩).1 true
      rfl rfl (by decide) (by decide) (by decide) (by decide)).1
  · exact ((c6_error_propagation ⟨48000, 10000000, 480⟩ 0
      ⟨true, true, true, 0, 10000000, false, [(true, true)], 0, 0, 0, 0, 0⟩ []
      ⟨0, 0, 0, 0, 0, 0, 0, 0, 0, 0, 0, true, 0, 0, 0, 0, true, 0⟩).2.1 true
      rfl rfl rfl rfl (by decide) (by decide) (by decide) (by decide)).1
  · exact (c6_error_propagation ⟨48000, 10000000, 480⟩ 0
      ⟨true, true, true, 0, 10000000, true, [], 0, 0, 0, -1, 0⟩ []
      ⟨0, 0, 0, 0, 0, 0, 0, 0, 0, 0, 0, true, 0, 0, 0, 0, true, 0⟩).2.2.1
      rfl rfl rfl rfl (by decide)
  · exact (c6_error_propagation ⟨48000, 10000000, 480⟩ 0
      ⟨true, true, true, 0, 10000000, true, [], 0, 0, 0, 0, -2⟩ []
      ⟨0, 0, 0, 0, 0, 0, 0, 0, 0, 0, 0, true, 0, 0, 0, 0, true, 0⟩).2.2.2.1
      rfl rfl rfl rfl (by decide) (by decide)
  · exact (c6_error_propagation ⟨48000, 10000000, 480⟩ 0
      ⟨true, true, true, 0, 10000000, false, [(true, true)], -3, 0, 0, 0, 0⟩ []
      ⟨0, 0, 0, 0, 0, 0, 0, 0, 0, 0, 0, true, 0, 0, 0, 0, true, 0⟩).2.2.2.2.1
      rfl (by decide) (by decide)
  · exact (c6_error_propagation ⟨48000, 10000000, 480⟩ 0
      ⟨true, true, true, 0, 10000000, false, [(true, true)], 0, -4, 0, 0, 0⟩ []
      ⟨0, 0, 0, 0, 0, 0, 0, 0, 0, 0, 0, true, 0, 0, 0, 0, true, 0⟩).2.2.2.2.2.1
      rfl (by decide) (by decide) (by decide)
  · exact (c6_error_propagation ⟨48000, 10000000, 480⟩ 0
      ⟨true, true, true, 0, 10000000, false, [(true, true)], 0, 0, -5, 0, 0⟩ []
      ⟨0, 0, 0, 0, 0, 0, 0, 0, 0, 0, 0, true, 0, 0, 0, 0, true, 0⟩).2.2.2.2.2.2.1 true
      rfl (by decide) (by decide) (by decide) (by decide) (by decide)
  · exact (c6_error_propagation ⟨48000, 10000000, 480⟩ 0
      ⟨true, true, true, 0, 10000000, true, [], 0, 0, 0, -1, 0⟩
      [⟨true, true, true, 0, 10000000, true, [], 0, 0, 0, 0, 0⟩]
      ⟨0, 0, 0, 0, 0, 0, 0, 0, 0, 0, 0, true, 0, 0, 0, 0, true, 0⟩).2.2.2.2.2.2.2.1
      [Event.getPosition 0, Event.getChunk 0 true, Event.adjustVolume,
       Event.getBuffer] 0 (-1) (by decide)
  · exact (c6_error_propagation ⟨48000, 10000000, 480⟩ 0
      ⟨true, true, true, 0, 10000000, true, [], 0, 0, 0, 0, 0⟩ []
      ⟨0, 0, 0, 0, 0, 0, 0, -10, 0, 0, 0, true, 0, 0, 0, 0, true, 0⟩).2.2.2.2.2.2.2.2.1
      (by decide) (by decide) (by decide) (by decide) (by decide) (by decide)
      (by decide) (by decide)
  · exact (c6_error_propagation ⟨48000, 10000000, 480⟩ 0
      ⟨true, true, true, 0, 10000000, true, [], 0, 0, 0, 0, 0⟩ []
      ⟨0, 0, 0, 0, 0, 0, 0, audclntBufSizeNotAligned, 0, 0, -11, true,
        0, 0, 0, 0, true, 0⟩).2.2.2.2.2.2.2.2.2.1
      (by decide) (by decide) (by decide) (by decide) (by decide) (by decide)
      rfl (by decide) (by decide) (by decide)
  · exact (c6_error_propagation ⟨48000, 10000000, 480⟩ 0
      ⟨true, true, true, 0, 10000000, true, [], 0, 0, 0, 0, 0⟩ []
      ⟨0, 0, 0, 0, 0, 0, 0, 0, 0, 0, 0, true, 0, 0, -12, 0, true, 0⟩).2.2.2.2.2.2.2.2.2.2.1
      (by decide) (by decide) (by decide) (by decide) (by decide) (by decide)
      (by decide) (by decide) rfl (by decide) (by decide) (by decide)
  · exact (c6_error_propagation ⟨48000, 10000000, 480⟩ 0
      ⟨true, true, true, 0, 10000000, true, [], 0, 0, 0, 0, 0⟩ []
      ⟨0, 0, 0, 0, 0, 0, 0, 0, 0, 0, 0, true, 0, 0, 0, -13, true, 0⟩).2.2.2.2.2.2.2.2.2.2.2.1
      (by decide) (by decide) (by decide) (by decide) (by decide) (by decide)
      (by decide) (by decide) rfl (by decide) (by decide) (by decide) (by decide)
  · exact (c6_error_propagation ⟨48000, 10000000, 480⟩ 0
      ⟨true, true, true, 0, 10000000, true, [], 0, 0, 0, 0, 0⟩ []
      ⟨0, 0, 0, 0, 0, 0, 0, 0, 0, 0, 0, true, 0, 0, 0, 0, true, -14⟩).2.2.2.2.2.2.2.2.2.2.2.2
      (by decide) (by decide) (by decide) (by decide) (by decide) (by decide)
      (by decide) (by decide) rfl (by decide) (by decide) (by decide) (by decide)
      rfl (by decide)

/-- Counterexample to C6 as stated: `AUDCLNT_E_BUFFER_SIZE_NOT_ALIGNED` is a
FAILED `HRESULT`, yet a first `Initialize` returning it does not raise an
exception — the setup retries `Initialize` with an aligned buffer size and,
the retry succeeding, completes normally. -/
theorem c6_counterexample :
    FAILED audclntBufSizeNotAligned = true ∧
    setup ⟨0, 0, 0, 0, 0, 0, 0, audclntBufSizeNotAligned, 0, 0, 0, true,
      0, 0, 0, 0, true, 0⟩ = Except.ok () := by
  exact ⟨by decide, rfl⟩

end Wasapi
